import Mathlib

/-!
Verification of the request-gate middleware (`main.go`).

The middleware (`AuthPlugin`) checks two inbound headers, performs one
outbound HTTP GET against a configured verification endpoint, and either
mirrors an error back to the caller or sets a `token` cookie and invokes
the next handler.

Shallow embedding conventions:
- `time.Duration` is an `Int` counted in nanoseconds (Go's representation).
- The Go standard library pieces that the code calls but that are outside
  this repository (`net/url.Parse`, `http.NewRequest` URL validation, the
  HTTP round trip `client.Do`, `io.ReadAll`, and the JSON grammar parser
  inside `encoding/json.Unmarshal`) are environment oracles: `ServeHTTP`
  is parametrised over an `Env` record that says, for this invocation,
  whether request construction succeeds, what the round trip returns, and
  what JSON value (if any) a body string parses to.  The struct-decoding
  half of `json.Unmarshal` (field lookup into `authResponse`) is defined
  concretely (`decodeAuthResponse`), following Go's semantics: a missing
  or null `accessToken` field leaves the zero value `""`, unknown fields
  are ignored, a non-string value is a decode error, and a non-object,
  non-null top level is a decode error.
- `http.Error(rw, msg, code)` writes `msg` followed by a newline
  (`fmt.Fprintln`); the embedding keeps that newline in the body.
- The next handler is opaque: `ServeHTTP`'s result records whether it was
  invoked and with which request (`Outcome.forward`), rather than running
  it.  The Go code calls `a.next.ServeHTTP(rw, req)` directly after
  `http.SetCookie`, with no failure point in between, so attaching the
  cookie and invoking next are a single outcome constructor.
-/

namespace AuthGate

/-- Configuration of the plugin (`Config` in main.go): `conf` is the
endpoint URL string, `timeout` a duration in nanoseconds. -/
structure Config where
  conf : String
  timeout : Int
deriving Repr, DecidableEq

/-- Nanoseconds in one second; `30 * time.Second` is `30 * nsPerSecond`. -/
def nsPerSecond : Int := 1000000000

/-- Default plugin configuration (`CreateConfig` in main.go). -/
def CreateConfig : Config :=
  { conf := "", timeout := 30 * nsPerSecond }

/-- Result of `net/url.Parse` as far as the plugin uses it: the host and
path components of the parsed URL. -/
structure ParsedURL where
  host : String
  path : String
deriving Repr, DecidableEq

/-- The plugin state built by `New` (`AuthPlugin` in main.go).  `H` is the
opaque type of the downstream handler. -/
structure AuthPlugin (H : Type) where
  next : H
  endpointHost : String
  endpointPath : String
  timeout : Int
  name : String
deriving Repr

/-- Constructor of the plugin (`New` in main.go).  `urlParse` is the
oracle for `net/url.Parse` (`none` = parse error).  Returns `none` where
the Go code returns a non-nil error (and a nil handler): when `conf` is
empty or `url.Parse` fails.  On success the plugin stores the parsed
host and path and the timeout, substituting 30s when the configured
timeout is exactly zero.  No network access happens here: `New` is a
pure function of the config and the parse oracle. -/
def New {H : Type} (urlParse : String → Option ParsedURL) (next : H)
    (config : Config) (name : String) : Option (AuthPlugin H) :=
  if config.conf = "" then
    none
  else
    match urlParse config.conf with
    | none => none
    | some parsedURL =>
      let timeout := if config.timeout = 0 then 30 * nsPerSecond else config.timeout
      some { next := next
             endpointHost := parsedURL.host
             endpointPath := parsedURL.path
             timeout := timeout
             name := name }

/-- A JSON value, used to model the body that `encoding/json` decodes. -/
inductive Json where
  | jstr (s : String)
  | jnum (n : Int)
  | jbool (b : Bool)
  | jnull
  | jarr (xs : List Json)
  | jobj (fields : List (String × Json))

/-- Last binding of key `k` in an object's field list (Go's `json`
package lets a later duplicate key win). -/
def lookupLast (k : String) (fields : List (String × Json)) : Option Json :=
  fields.foldl (fun acc p => if p.1 = k then some p.2 else acc) none

/-- Last binding whose key matches `k` case-insensitively (Go's fallback
match when no exact key is present). -/
def lookupLastCI (k : String) (fields : List (String × Json)) : Option Json :=
  fields.foldl (fun acc p => if p.1.toLower = k.toLower then some p.2 else acc) none

/-- Struct-decoding half of `json.Unmarshal(body, &authResp)` for
`authResponse { AccessToken string `json:"accessToken"` }`:
- top-level `null` or an object without a usable `accessToken` binding
  leaves the zero value `""` (absence is not an error);
- a string binding yields its value, a `null` binding leaves `""`;
- a binding of any other type is a decode error;
- any other top level (array, string, number, bool) is a decode error;
- unknown extra fields are ignored. -/
def decodeAuthResponse : Json → Option String
  | Json.jnull => some ""
  | Json.jobj fields =>
    match lookupLast "accessToken" fields with
    | some (Json.jstr s) => some s
    | some Json.jnull => some ""
    | some _ => none
    | none =>
      match lookupLastCI "accessToken" fields with
      | some (Json.jstr s) => some s
      | some Json.jnull => some ""
      | some _ => none
      | none => some ""
  | _ => none

/-- The inbound request as the plugin observes it: `headers k` is
`req.Header.Get(k)`, which returns `""` for an absent header. -/
structure Request where
  headers : String → String

/-- The outbound request built by `ServeHTTP`: method, URL, and the
headers set on it. -/
structure OutRequest where
  method : String
  url : String
  headers : List (String × String)
deriving Repr, DecidableEq

/-- Result of one outbound round trip (`client.Do` succeeded): status
code and the result of `io.ReadAll` on the body (`Except.error` = read
failure). -/
structure DoResp where
  status : Nat
  body : Except Unit String

/-- The environment of one `ServeHTTP` invocation, abstracting the Go
standard library and the network:
- `newRequestOk u` — whether `http.NewRequest(GET, u, nil)` succeeds;
- `doResp r` — result of `client.Do` on the outbound request (`none` =
  transport failure or timeout);
- `parseJson b` — the JSON value body `b` parses to (`none` = syntax
  error in `json.Unmarshal`). -/
structure Env where
  newRequestOk : String → Bool
  doResp : OutRequest → Option DoResp
  parseJson : String → Option Json

/-- The cookie built on the success path (`http.Cookie` literal in
main.go). -/
structure Cookie where
  name : String
  value : String
  path : String
  httpOnly : Bool
  secure : Bool
deriving Repr, DecidableEq

/-- What `ServeHTTP` does with the response writer:
`reject s b` — it wrote status `s` and body `b` and returned without
touching the next handler (no cookie attached);
`forward c r` — it attached exactly cookie `c` via `http.SetCookie` and
then invoked the next handler once with request `r`. -/
inductive Outcome where
  | reject (status : Nat) (body : String)
  | forward (cookie : Cookie) (req : Request)

/-- Full observable result of one `ServeHTTP` invocation: the single
outbound request passed to `client.Do`, if any, and the response-side
outcome. -/
structure GateResult where
  outCall : Option OutRequest
  outcome : Outcome

/-- Body written by `http.Error(rw, msg, 401)`: `fmt.Fprintln` appends a
newline to the message. -/
def unauthorizedBody : String := "\x7b\"error\": \"Unauthorized\"\x7d\n"

/-- Body written by `http.Error(rw, msg, 500)`, newline included. -/
def internalErrorBody : String := "\x7b\"error\": \"Internal error\"\x7d\n"

/-- The URL of the outbound call: `fmt.Sprintf("http://%s%s", host, path)`
— plain http regardless of the configured scheme, query discarded. -/
def authURL {H : Type} (a : AuthPlugin H) : String :=
  "http://" ++ a.endpointHost ++ a.endpointPath

/-- The outbound GET request built for an inbound request: the inbound
`x-api-key` and `x-account` values are set on it unchanged. -/
def outboundReq {H : Type} (a : AuthPlugin H) (req : Request) : OutRequest :=
  { method := "GET"
    url := authURL a
    headers := [("x-api-key", req.headers "x-api-key"),
                ("x-account", req.headers "x-account")] }

/-- The middleware logic (`AuthPlugin.ServeHTTP` in main.go), step for
step:
1. read `x-api-key` and `x-account`; if either is empty, `http.Error`
   with 401 and the Unauthorized body, return;
2. build the auth URL; if `http.NewRequest` fails, `http.Error` 500;
3. set the two headers on the outbound request and run `client.Do`;
   transport failure → `http.Error` 500;
4. `io.ReadAll` the body; read failure → `http.Error` 500;
5. non-200 status → write that status and the body verbatim, return;
6. `json.Unmarshal` the body; failure → `http.Error` 500;
7. set the `token` cookie (Path `/`, HttpOnly, Secure) and invoke the
   next handler with the original request. -/
def ServeHTTP {H : Type} (a : AuthPlugin H) (env : Env) (req : Request) : GateResult :=
  let apiKey := req.headers "x-api-key"
  let tenant := req.headers "x-account"
  if apiKey = "" ∨ tenant = "" then
    { outCall := none, outcome := Outcome.reject 401 unauthorizedBody }
  else
    if env.newRequestOk (authURL a) then
      let authReq := outboundReq a req
      match env.doResp authReq with
      | none =>
        { outCall := some authReq, outcome := Outcome.reject 500 internalErrorBody }
      | some resp =>
        match resp.body with
        | Except.error _ =>
          { outCall := some authReq, outcome := Outcome.reject 500 internalErrorBody }
        | Except.ok body =>
          if resp.status ≠ 200 then
            { outCall := some authReq, outcome := Outcome.reject resp.status body }
          else
            match (env.parseJson body).bind decodeAuthResponse with
            | none =>
              { outCall := some authReq, outcome := Outcome.reject 500 internalErrorBody }
            | some token =>
              { outCall := some authReq
                outcome := Outcome.forward
                  { name := "token", value := token, path := "/",
                    httpOnly := true, secure := true } req }
    else
      { outCall := none, outcome := Outcome.reject 500 internalErrorBody }

/-- Projection used to state claims about rejection responses: the status
and body when the outcome is a rejection, `none` when the next handler
ran. -/
def rejected : Outcome → Option (Nat × String)
  | Outcome.reject s b => some (s, b)
  | Outcome.forward _ _ => none

/-- The cookie attached to the response, if any. -/
def setCookieOf : Outcome → Option Cookie
  | Outcome.forward c _ => some c
  | Outcome.reject _ _ => none

/-- Whether (and with which request) the next handler was invoked. -/
def forwardedReq : Outcome → Option Request
  | Outcome.forward _ r => some r
  | Outcome.reject _ _ => none

/-! Concrete fixtures used by witnesses and counterexamples. -/

/-- A plugin built from endpoint `http://auth-service/verify`. -/
def plugin0 : AuthPlugin Unit :=
  { next := (), endpointHost := "auth-service", endpointPath := "/verify",
    timeout := 30 * nsPerSecond, name := "auth_cookie" }

/-- An inbound request carrying both required headers. -/
def reqBoth : Request :=
  { headers := fun h =>
      if h = "x-api-key" then "key1" else if h = "x-account" then "acct1" else "" }

/-- An inbound request missing `x-api-key` (Go's `Header.Get` returns `""`). -/
def reqNoKey : Request :=
  { headers := fun h => if h = "x-account" then "acct1" else "" }

/-- Environment where the outbound round trip fails at transport level. -/
def envTransportFail : Env :=
  { newRequestOk := fun _ => true, doResp := fun _ => none, parseJson := fun _ => none }

/-- Environment where the endpoint answers 200 with a body that parses to
an object carrying `accessToken := "tok2"`. -/
def env2 : Env :=
  { newRequestOk := fun _ => true
    doResp := fun _ => some { status := 200, body := Except.ok "resp2" }
    parseJson := fun s =>
      if s = "resp2" then some (Json.jobj [("accessToken", Json.jstr "tok2")]) else none }

/-
C1 theorem.  The body written by `http.Error` is the Unauthorized JSON
followed by a newline, which is where the claim's exact-body wording
fails; everything else in the claim holds.
-/

/-- C1 (amended): when `x-api-key` or `x-account` is absent or empty,
`ServeHTTP` writes status 401 with the Unauthorized JSON body followed by
a trailing newline, makes no outbound call, and does not invoke the next
handler. -/
theorem c1_missing_headers_401 {H : Type} (a : AuthPlugin H) (env : Env) (req : Request)
    (h : req.headers "x-api-key" = "" ∨ req.headers "x-account" = "") :
    ServeHTTP a env req = { outCall := none, outcome := Outcome.reject 401 unauthorizedBody } := by
  simp only [ServeHTTP]
  rw [if_pos h]

/-- C1 witness: a concrete request lacking `x-api-key` is rejected 401. -/
theorem c1_witness :
    ServeHTTP plugin0 envTransportFail reqNoKey =
      { outCall := none, outcome := Outcome.reject 401 unauthorizedBody } :=
  c1_missing_headers_401 plugin0 envTransportFail reqNoKey (Or.inl rfl)

/-- C1 counterexample: on a request lacking `x-api-key` the body written
is not exactly the JSON object the claim states — the error writer
appends a newline. -/
theorem c1_counterexample :
    rejected (ServeHTTP plugin0 envTransportFail reqNoKey).outcome ≠
      some (401, "\x7b\"error\": \"Unauthorized\"\x7d") := by
  decide

/-- C2: with both headers present, when request construction succeeds and
the endpoint answers 200 with a body parsing to an object whose
`accessToken` is the string `T`, `ServeHTTP` attaches exactly one cookie
`token=T` with `Path=/`, `HttpOnly` and `Secure`, and invokes the next
handler once with the original request. -/
theorem c2_success_cookie_next {H : Type} (a : AuthPlugin H) (env : Env) (req : Request)
    (b T : String)
    (hk : req.headers "x-api-key" ≠ "") (ha : req.headers "x-account" ≠ "")
    (hn : env.newRequestOk (authURL a) = true)
    (hd : env.doResp (outboundReq a req) = some { status := 200, body := Except.ok b })
    (hp : env.parseJson b = some (Json.jobj [("accessToken", Json.jstr T)])) :
    ServeHTTP a env req =
      { outCall := some (outboundReq a req)
        outcome := Outcome.forward
          { name := "token", value := T, path := "/", httpOnly := true, secure := true } req } := by
  simp only [ServeHTTP]
  rw [if_neg (by simp [hk, ha]), if_pos hn, hd]
  simp [hp, decodeAuthResponse, lookupLast]

/-- C2 witness: concrete success run with token `tok2`. -/
theorem c2_witness :
    ServeHTTP plugin0 env2 reqBoth =
      { outCall := some (outboundReq plugin0 reqBoth)
        outcome := Outcome.forward
          { name := "token", value := "tok2", path := "/", httpOnly := true, secure := true }
          reqBoth } :=
  c2_success_cookie_next plugin0 env2 reqBoth "resp2" "tok2"
    (by decide) (by decide) rfl rfl rfl

/-- Environment where the endpoint answers 403 with body `denied`. -/
def env403 : Env :=
  { newRequestOk := fun _ => true
    doResp := fun _ => some { status := 403, body := Except.ok "denied" }
    parseJson := fun _ => none }

/-- C3: with both headers present, when the endpoint answers a status `S`
different from 200 with (readable) body `B`, `ServeHTTP` writes status
exactly `S` and body exactly `B` verbatim, attaches no cookie, and does
not invoke the next handler. -/
theorem c3_non200_mirror {H : Type} (a : AuthPlugin H) (env : Env) (req : Request)
    (S : Nat) (B : String)
    (hk : req.headers "x-api-key" ≠ "") (ha : req.headers "x-account" ≠ "")
    (hn : env.newRequestOk (authURL a) = true)
    (hd : env.doResp (outboundReq a req) = some { status := S, body := Except.ok B })
    (hS : S ≠ 200) :
    ServeHTTP a env req =
      { outCall := some (outboundReq a req), outcome := Outcome.reject S B } := by
  simp only [ServeHTTP]
  rw [if_neg (by simp [hk, ha]), if_pos hn, hd]
  simp [hS]

/-- C3 witness: a concrete 403 answer is mirrored verbatim. -/
theorem c3_witness :
    ServeHTTP plugin0 env403 reqBoth =
      { outCall := some (outboundReq plugin0 reqBoth)
        outcome := Outcome.reject 403 "denied" } :=
  c3_non200_mirror plugin0 env403 reqBoth 403 "denied"
    (by decide) (by decide) rfl rfl (by decide)

/-- Environment where the round trip succeeds but reading the response
body fails. -/
def envReadFail : Env :=
  { newRequestOk := fun _ => true
    doResp := fun _ => some { status := 200, body := Except.error () }
    parseJson := fun _ => none }

/-- Environment where the endpoint answers 200 with a body that is not
valid JSON. -/
def envBadJson : Env :=
  { newRequestOk := fun _ => true
    doResp := fun _ => some { status := 200, body := Except.ok "not json" }
    parseJson := fun _ => none }

/-- C4 (amended): with both headers present and request construction
succeeding, each failure of the outbound round trip — transport failure
or timeout, body read failure, and failure of `json.Unmarshal` on a 200
body — yields status 500 with the Internal-error JSON body followed by a
trailing newline, and the next handler is not invoked. -/
theorem c4_failures_500 {H : Type} (a : AuthPlugin H) (env : Env) (req : Request)
    (hk : req.headers "x-api-key" ≠ "") (ha : req.headers "x-account" ≠ "")
    (hn : env.newRequestOk (authURL a) = true) :
    (env.doResp (outboundReq a req) = none →
      ServeHTTP a env req =
        { outCall := some (outboundReq a req), outcome := Outcome.reject 500 internalErrorBody }) ∧
    (∀ s, env.doResp (outboundReq a req) = some { status := s, body := Except.error () } →
      ServeHTTP a env req =
        { outCall := some (outboundReq a req), outcome := Outcome.reject 500 internalErrorBody }) ∧
    (∀ b, env.doResp (outboundReq a req) = some { status := 200, body := Except.ok b } →
      (env.parseJson b).bind decodeAuthResponse = none →
      ServeHTTP a env req =
        { outCall := some (outboundReq a req), outcome := Outcome.reject 500 internalErrorBody }) := by
  refine ⟨fun hd => ?_, fun s hd => ?_, fun b hd hj => ?_⟩
  · simp only [ServeHTTP]
    rw [if_neg (by simp [hk, ha]), if_pos hn, hd]
  · simp only [ServeHTTP]
    rw [if_neg (by simp [hk, ha]), if_pos hn, hd]
  · simp only [ServeHTTP]
    rw [if_neg (by simp [hk, ha]), if_pos hn, hd]
    simp [hj]

/-- C4 witness: a concrete transport failure yields the 500 rejection. -/
theorem c4_witness :
    ServeHTTP plugin0 envTransportFail reqBoth =
      { outCall := some (outboundReq plugin0 reqBoth)
        outcome := Outcome.reject 500 internalErrorBody } :=
  (c4_failures_500 plugin0 envTransportFail reqBoth
    (by decide) (by decide) rfl).1 rfl

/-- C4 counterexample: on a concrete transport failure the body written
is not exactly the JSON object the claim states — the error writer
appends a newline. -/
theorem c4_counterexample :
    rejected (ServeHTTP plugin0 envTransportFail reqBoth).outcome ≠
      some (500, "\x7b\"error\": \"Internal error\"\x7d") := by
  decide

/-- A plugin whose stored endpoint host contains a space: reachable from
`New`, since `url.Parse` accepts `http://h%20st/p` and decodes its host
component to `h st`. -/
def pluginSp : AuthPlugin Unit :=
  { next := (), endpointHost := "h st", endpointPath := "/p",
    timeout := 30 * nsPerSecond, name := "auth_cookie" }

/-- Environment whose request constructor rejects exactly the URL
`http://h st/p`, as Go's `http.NewRequest` does (a space is not a valid
host character when the URL is re-parsed). -/
def envSp : Env :=
  { newRequestOk := fun u => u ≠ "http://h st/p"
    doResp := fun _ => some { status := 200, body := Except.ok "" }
    parseJson := fun _ => some Json.jnull }

/-- C5 (amended): with both headers present, provided the HTTP request
constructor accepts the built URL, `ServeHTTP` makes exactly one outbound
request — a GET to `http://` ++ endpointHost ++ endpointPath (plain http,
configured query discarded) carrying the inbound `x-api-key` and
`x-account` values unchanged — whatever the round trip then returns. -/
theorem c5_single_outbound_get {H : Type} (a : AuthPlugin H) (env : Env) (req : Request)
    (hk : req.headers "x-api-key" ≠ "") (ha : req.headers "x-account" ≠ "")
    (hn : env.newRequestOk (authURL a) = true) :
    (ServeHTTP a env req).outCall = some (outboundReq a req) ∧
    outboundReq a req =
      { method := "GET"
        url := "http://" ++ a.endpointHost ++ a.endpointPath
        headers := [("x-api-key", req.headers "x-api-key"),
                    ("x-account", req.headers "x-account")] } := by
  refine ⟨?_, rfl⟩
  simp only [ServeHTTP]
  rw [if_neg (by simp [hk, ha]), if_pos hn]
  rcases hdo : env.doResp (outboundReq a req) with - | resp
  · rfl
  · rcases resp with ⟨s, e | b⟩
    · rfl
    · by_cases hs : s = 200
      · subst hs
        simp only [ne_eq, not_true_eq_false, if_neg]
        rcases hj : (env.parseJson b).bind decodeAuthResponse with - | t <;> simp
      · simp [hs]

/-- C5 witness: in the concrete success scenario the single outbound call
is the expected GET carrying both header values. -/
theorem c5_witness :
    (ServeHTTP plugin0 env2 reqBoth).outCall = some (outboundReq plugin0 reqBoth) ∧
    outboundReq plugin0 reqBoth =
      { method := "GET"
        url := "http://" ++ plugin0.endpointHost ++ plugin0.endpointPath
        headers := [("x-api-key", reqBoth.headers "x-api-key"),
                    ("x-account", reqBoth.headers "x-account")] } :=
  c5_single_outbound_get plugin0 env2 reqBoth (by decide) (by decide) rfl

/-- C5 counterexample: both headers are present, yet no outbound request
is made — the stored host `h st` makes the request constructor reject the
built URL and `ServeHTTP` returns 500 before calling out. -/
theorem c5_counterexample :
    reqBoth.headers "x-api-key" ≠ "" ∧ reqBoth.headers "x-account" ≠ "" ∧
    (ServeHTTP pluginSp envSp reqBoth).outCall = none := by
  refine ⟨by decide, by decide, ?_⟩
  decide

/-- A concrete `url.Parse` oracle that accepts exactly the endpoint
`http://auth-service/verify`, splitting it into host and path. -/
def urlParse0 : String → Option ParsedURL :=
  fun s =>
    if s = "http://auth-service/verify" then some { host := "auth-service", path := "/verify" }
    else none

/-- C6: `New` fails (returns no gate) exactly when the endpoint string is
empty or URL parsing rejects it, so no usable gate is ever produced from
an invalid endpoint; on success the gate holds the parsed endpoint's host
and path and the resolved timeout.  `New` is a pure function of the
config and the parse oracle, so construction makes no network access. -/
theorem c6_new_validation {H : Type} (urlParse : String → Option ParsedURL) (next : H)
    (config : Config) (name : String) :
    (New urlParse next config name = none ↔
      config.conf = "" ∨ urlParse config.conf = none) ∧
    (∀ u, config.conf ≠ "" → urlParse config.conf = some u →
      New urlParse next config name =
        some { next := next, endpointHost := u.host, endpointPath := u.path,
               timeout := if config.timeout = 0 then 30 * nsPerSecond else config.timeout,
               name := name }) := by
  constructor
  · by_cases hc : config.conf = ""
    · simp [New, hc]
    · rcases hu : urlParse config.conf with - | u <;> simp [New, hc, hu]
  · intro u hc hu
    simp [New, hc, hu]

/-- C6 witness: the valid endpoint yields a gate holding host
`auth-service`, path `/verify` and the configured timeout. -/
theorem c6_witness :
    New urlParse0 () { conf := "http://auth-service/verify", timeout := 5 * nsPerSecond }
        "auth_cookie" =
      some { next := (), endpointHost := "auth-service", endpointPath := "/verify",
             timeout := if (5 * nsPerSecond : Int) = 0 then 30 * nsPerSecond
                        else 5 * nsPerSecond,
             name := "auth_cookie" } :=
  (c6_new_validation urlParse0 ()
    { conf := "http://auth-service/verify", timeout := 5 * nsPerSecond } "auth_cookie").2
    { host := "auth-service", path := "/verify" } (by decide) rfl

/-- C7 (amended): when URL parsing succeeds, `New` resolves the gate's
timeout to 30 seconds exactly when the configured timeout equals zero;
any nonzero configured timeout — positive or negative — is kept
unchanged. -/
theorem c7_timeout_resolution {H : Type} (urlParse : String → Option ParsedURL) (next : H)
    (config : Config) (name : String) (u : ParsedURL)
    (hc : config.conf ≠ "") (hu : urlParse config.conf = some u) :
    ∃ g, New urlParse next config name = some g ∧
      g.timeout = (if config.timeout = 0 then 30 * nsPerSecond else config.timeout) := by
  refine ⟨{ next := next, endpointHost := u.host, endpointPath := u.path,
            timeout := if config.timeout = 0 then 30 * nsPerSecond else config.timeout,
            name := name }, ?_, rfl⟩
  simp [New, hc, hu]

/-- C7 witness: timeout zero is resolved to 30 seconds. -/
theorem c7_witness :
    ∃ g, New urlParse0 () { conf := "http://auth-service/verify", timeout := 0 }
          "auth_cookie" = some g ∧
      g.timeout = (if (0 : Int) = 0 then 30 * nsPerSecond else 0) :=
  c7_timeout_resolution urlParse0 ()
    { conf := "http://auth-service/verify", timeout := 0 } "auth_cookie"
    { host := "auth-service", path := "/verify" } (by decide) rfl

/-- C7 counterexample: a configured timeout of `-1` (≤ 0) is kept as `-1`
by `New` instead of being resolved to 30 seconds as the claim states. -/
theorem c7_counterexample :
    (New urlParse0 () { conf := "http://auth-service/verify", timeout := -1 }
        "auth_cookie").map (fun g => g.timeout) = some (-1) ∧
    some (-1 : Int) ≠ some (30 * nsPerSecond) := by
  constructor
  · rfl
  · decide

/-- Environment where the endpoint answers 200 with a body parsing to a
JSON object with no fields at all (so no `accessToken` binding). -/
def envNoField : Env :=
  { newRequestOk := fun _ => true
    doResp := fun _ => some { status := 200, body := Except.ok "\x7b\x7d" }
    parseJson := fun s => if s = "\x7b\x7d" then some (Json.jobj []) else none }

/-- C8: a 200 answer whose body parses to a JSON object is not an error
even when the `accessToken` field is absent (the cookie then carries the
zero value `""`), and when the field is present as a string — empty or
not, with arbitrary other fields around it — the cookie carries exactly
that string; in both cases the next handler is invoked. -/
theorem c8_permissive_decode {H : Type} (a : AuthPlugin H) (env : Env) (req : Request)
    (b : String) (fields : List (String × Json))
    (hk : req.headers "x-api-key" ≠ "") (ha : req.headers "x-account" ≠ "")
    (hn : env.newRequestOk (authURL a) = true)
    (hd : env.doResp (outboundReq a req) = some { status := 200, body := Except.ok b })
    (hp : env.parseJson b = some (Json.jobj fields)) :
    (lookupLast "accessToken" fields = none → lookupLastCI "accessToken" fields = none →
      ServeHTTP a env req =
        { outCall := some (outboundReq a req)
          outcome := Outcome.forward
            { name := "token", value := "", path := "/", httpOnly := true, secure := true }
            req }) ∧
    (∀ T, lookupLast "accessToken" fields = some (Json.jstr T) →
      ServeHTTP a env req =
        { outCall := some (outboundReq a req)
          outcome := Outcome.forward
            { name := "token", value := T, path := "/", httpOnly := true, secure := true }
            req }) := by
  constructor
  · intro h1 h2
    simp only [ServeHTTP]
    rw [if_neg (by simp [hk, ha]), if_pos hn, hd]
    simp [hp, decodeAuthResponse, h1, h2]
  · intro T h1
    simp only [ServeHTTP]
    rw [if_neg (by simp [hk, ha]), if_pos hn, hd]
    simp [hp, decodeAuthResponse, h1]

/-- C8 witness: a 200 answer with body `\x7b\x7d` (the empty JSON object,
no `accessToken` field) still sets the `token` cookie — with empty value
— and forwards to the next handler. -/
theorem c8_witness :
    ServeHTTP plugin0 envNoField reqBoth =
      { outCall := some (outboundReq plugin0 reqBoth)
        outcome := Outcome.forward
          { name := "token", value := "", path := "/", httpOnly := true, secure := true }
          reqBoth } :=
  (c8_permissive_decode plugin0 envNoField reqBoth "\x7b\x7d" []
    (by decide) (by decide) rfl rfl rfl).1 rfl rfl

/-- Helper case analysis: every run of `ServeHTTP` either rejects (some
status and body written, no cookie, next not invoked) or forwards with
the `token` cookie and the original request. -/
theorem ServeHTTP_outcome_cases {H : Type} (a : AuthPlugin H) (env : Env) (req : Request) :
    (∃ s b, (ServeHTTP a env req).outcome = Outcome.reject s b) ∨
    (∃ t, (ServeHTTP a env req).outcome =
      Outcome.forward
        { name := "token", value := t, path := "/", httpOnly := true, secure := true } req) := by
  by_cases h1 : req.headers "x-api-key" = "" ∨ req.headers "x-account" = ""
  · refine Or.inl ⟨401, unauthorizedBody, ?_⟩
    simp only [ServeHTTP]
    rw [if_pos h1]
  by_cases hn : env.newRequestOk (authURL a) = true
  case neg =>
    refine Or.inl ⟨500, internalErrorBody, ?_⟩
    simp only [ServeHTTP]
    rw [if_neg h1]
    simp [hn]
  rcases hdo : env.doResp (outboundReq a req) with - | ⟨s, e | b⟩
  · refine Or.inl ⟨500, internalErrorBody, ?_⟩
    simp only [ServeHTTP]
    rw [if_neg h1, if_pos hn, hdo]
  · refine Or.inl ⟨500, internalErrorBody, ?_⟩
    simp only [ServeHTTP]
    rw [if_neg h1, if_pos hn, hdo]
  · rcases eq_or_ne s 200 with hs | hs
    · subst hs
      rcases hj : (env.parseJson b).bind decodeAuthResponse with - | t
      · refine Or.inl ⟨500, internalErrorBody, ?_⟩
        simp only [ServeHTTP]
        rw [if_neg h1, if_pos hn, hdo]
        simp [hj]
      · refine Or.inr ⟨t, ?_⟩
        simp only [ServeHTTP]
        rw [if_neg h1, if_pos hn, hdo]
        simp [hj]
    · refine Or.inl ⟨s, b, ?_⟩
      simp only [ServeHTTP]
      rw [if_neg h1, if_pos hn, hdo]
      simp [hs]

/-- C9: the cookie is attached exactly when the next handler is invoked —
no run of `ServeHTTP` sets the cookie without forwarding or forwards
without the cookie — and whenever forwarding happens, the cookie is the
`token` cookie and the next handler receives the original request. -/
theorem c9_cookie_iff_next {H : Type} (a : AuthPlugin H) (env : Env) (req : Request) :
    ((setCookieOf (ServeHTTP a env req).outcome).isSome =
      (forwardedReq (ServeHTTP a env req).outcome).isSome) ∧
    (forwardedReq (ServeHTTP a env req).outcome = none ∨
      ∃ t, setCookieOf (ServeHTTP a env req).outcome =
          some { name := "token", value := t, path := "/", httpOnly := true, secure := true } ∧
        forwardedReq (ServeHTTP a env req).outcome = some req) := by
  rcases ServeHTTP_outcome_cases a env req with ⟨s, b, h⟩ | ⟨t, h⟩
  · rw [h]
    exact ⟨rfl, Or.inl rfl⟩
  · rw [h]
    exact ⟨rfl, Or.inr ⟨t, rfl, rfl⟩⟩

/-- C10 (amended): with both headers present, when the HTTP request
constructor rejects the built URL, `ServeHTTP` writes status 500 with the
Internal-error JSON body followed by a trailing newline, makes no
outbound call, and does not invoke the next handler. -/
theorem c10_newrequest_failure {H : Type} (a : AuthPlugin H) (env : Env) (req : Request)
    (hk : req.headers "x-api-key" ≠ "") (ha : req.headers "x-account" ≠ "")
    (hn : env.newRequestOk (authURL a) = false) :
    ServeHTTP a env req = { outCall := none, outcome := Outcome.reject 500 internalErrorBody } := by
  simp only [ServeHTTP]
  rw [if_neg (by simp [hk, ha]), hn]
  rfl

/-- C10 witness: the gate built from host `h st` (reachable via endpoint
`http://h%20st/p`) hits the request-constructor failure path. -/
theorem c10_witness :
    ServeHTTP pluginSp envSp reqBoth =
      { outCall := none, outcome := Outcome.reject 500 internalErrorBody } :=
  c10_newrequest_failure pluginSp envSp reqBoth (by decide) (by decide) (by decide)

/-- C10 counterexample: on the request-constructor failure path the body
written is not exactly the JSON object the claim states — the error
writer appends a newline. -/
theorem c10_counterexample :
    rejected (ServeHTTP pluginSp envSp reqBoth).outcome ≠
      some (500, "\x7b\"error\": \"Internal error\"\x7d") := by
  decide

end AuthGate
